import Mathlib

/-
Verification development for the rusty-odo interpreter core
(src/base/lexer.rs, src/base/parser.rs, src/base/semantic_analyzer.rs,
src/exec/interpreter.rs, src/exec/value.rs, src/native/function.rs).

The Rust pipeline is shallowly embedded as executable Lean functions:
  * the lexer is a fueled loop over the character list of the input
    (fuel `length + 1` suffices because every produced token consumes at
    least one character);
  * the parser, semantic analyzer and interpreter are fueled mutual
    recursions (structural in the fuel), so that all definitions reduce
    inside the kernel; the fuel handed out by the entry points is far
    larger than the recursion depth any input of that token count can
    reach;
  * `Uuid::new_v4()` (used by the source for symbol ids, scope ids and
    value ids, and assumed collision free) is modelled by counters that
    hand out fresh natural numbers;
  * Rust `HashMap<Uuid, _>` is modelled by an association list keyed by
    the id (`assocInsert` replaces an existing key, like `HashMap::insert`);
    iteration order of `HashMap::values()` (used by `SymbolTable::lookup`,
    which scans for a name) is modelled as insertion order -- the scopes
    reachable in this development never hold two symbols of equal name,
    so the order is irrelevant;
  * Rust `panic!` / `.expect(..)` / `.unwrap()` (which abort the process)
    are modelled by the distinguished outcome `RErr.panicked`, kept apart
    from the `anyhow::Result` errors, which are `RErr.err`;
  * `char::is_alphabetic` / `is_numeric` are modelled by their ASCII
    restrictions (all inputs considered here are ASCII).

Note: the Rust sources as given do not compile as a crate: `base/parser.rs`
references `TokenType::LeftParen`, `TokenType::RightParen` and
`TokenType::Comma`, which `base/lexer.rs` does not define, and
`Interpreter::interpret` has no match arm for `SemanticAst::FunctionCall`.
The embedding adds the three token kinds to `TokenType` (the lexer never
produces them) and models the missing interpreter arm as a stuck/abort
outcome.
-/

namespace Odo

/-- Token kinds of `base/lexer.rs`. `LeftParen`, `RightParen` and `Comma`
are referenced by `base/parser.rs` but absent from the Rust enum (the crate
does not compile); they are included here so the parser is expressible, and
the lexer never emits them. -/
inductive TokenType
  | Var
  | Name
  | Number
  | Truth
  | Text
  | Assign
  | NewLine
  | SemiColon
  | LeftCurly
  | RightCurly
  | If
  | DebugPrint
  | LeftParen
  | RightParen
  | Comma
deriving DecidableEq, Repr

/-- `Token` of `base/lexer.rs`. -/
structure Token where
  token_type : TokenType
  value : String
  line : Nat
  column : Nat
deriving DecidableEq, Repr

/-- Debug rendering of a `TokenType`, as Rust `{:?}` produces it. -/
def ttDebug : TokenType → String
  | .Var => "Var"
  | .Name => "Name"
  | .Number => "Number"
  | .Truth => "Truth"
  | .Text => "Text"
  | .Assign => "Assign"
  | .NewLine => "NewLine"
  | .SemiColon => "SemiColon"
  | .LeftCurly => "LeftCurly"
  | .RightCurly => "RightCurly"
  | .If => "If"
  | .DebugPrint => "DebugPrint"
  | .LeftParen => "LeftParen"
  | .RightParen => "RightParen"
  | .Comma => "Comma"

/-- Debug rendering of a `Token`, as Rust `{:?}` produces it
(escape sequences inside the value are not re-escaped; the tokens this
development prints contain none). -/
def tokenDebug (t : Token) : String :=
  "Token \x7b token_type: " ++ ttDebug t.token_type ++ ", value: \"" ++ t.value ++
    "\", line: " ++ toString t.line ++ ", column: " ++ toString t.column ++ " \x7d"

/-- The lexer state of `Lexer` in `base/lexer.rs`: the source text as a
character list plus `position`, `current_line`, `current_column`. -/
structure LexState where
  code : List Char
  position : Nat
  current_line : Nat
  current_column : Nat
deriving Repr

/-- `Lexer::new`. -/
def Lexer.new (s : String) : LexState :=
  { code := s.data, position := 0, current_line := 1, current_column := 0 }

/-- `Lexer::current_char`. -/
def currentChar (st : LexState) : Option Char :=
  st.code.get? st.position

/-- `Lexer::advance`: advance one position; if the character now under the
cursor is a newline, bump the line counter and skip over that newline as
well.  (This skip is what swallows a newline that immediately follows any
consumed character.) -/
def advance (st : LexState) : LexState :=
  let st1 := { st with position := st.position + 1, current_column := st.current_column + 1 }
  match currentChar st1 with
  | some c =>
      if c = '\n' then
        { st1 with current_line := st1.current_line + 1, position := st1.position + 1,
                   current_column := 0 }
      else st1
  | none => st1

/-- Rust `char::is_whitespace`, restricted to the ASCII whitespace
characters (all inputs considered here are ASCII). -/
def isWhitespaceRust (c : Char) : Bool :=
  c = ' ' || c = '\t' || c = '\n' || c = '\r' || c = '\x0b' || c = '\x0c'

/-- `Lexer::ignore_whitespace`: skip whitespace other than newline.
Fueled; the callers pass at least `code.length + 1`. -/
def ignoreWhitespace : Nat → LexState → LexState
  | 0, st => st
  | fuel + 1, st =>
      match currentChar st with
      | some c =>
          if isWhitespaceRust c && !(c = '\n') then ignoreWhitespace fuel (advance st)
          else st
      | none => st

/-- The maximal alphabetic run loop of `Lexer::next` (identifier /
keyword lexing). -/
def takeAlpha : Nat → LexState → String → String × LexState
  | 0, st, acc => (acc, st)
  | fuel + 1, st, acc =>
      match currentChar st with
      | some c =>
          if c.isAlpha then takeAlpha fuel (advance st) (acc.push c)
          else (acc, st)
      | none => (acc, st)

/-- The maximal digit run loop of `Lexer::next` (number lexing). -/
def takeDigits : Nat → LexState → String → String × LexState
  | 0, st, acc => (acc, st)
  | fuel + 1, st, acc =>
      match currentChar st with
      | some c =>
          if c.isDigit then takeDigits fuel (advance st) (acc.push c)
          else (acc, st)
      | none => (acc, st)

/-- The escape table of `Lexer::escape_char`. -/
def escapeMap (c : Char) : Char :=
  if c = '\\' then '\\'
  else if c = 'n' then '\n'
  else if c = 'r' then '\r'
  else if c = 't' then '\t'
  else if c = 'b' then '\x08'
  else if c = 'a' then '\x07'
  else if c = 'v' then '\x0b'
  else c

/-- `Lexer::text`: the double-quoted text literal loop.  Returns the
accumulated value, or `none` for the error cases (unterminated literal /
end of file inside an escape), in which case the Rust iterator prints to
stderr and ends the token stream. -/
def textLit : Nat → LexState → String → Option (String × LexState)
  | 0, _, _ => none
  | fuel + 1, st, acc =>
      match currentChar st with
      | none => none
      | some c =>
          if c = '\"' then some (acc, advance st)
          else if c = '\\' then
            let st1 := advance st
            match currentChar st1 with
            | none => none
            | some e => textLit fuel (advance st1) (acc.push (escapeMap e))
          else textLit fuel (advance st) (acc.push c)

/-- The keyword table (`KEYWORDS` in `base/lexer.rs`). -/
def keywordType (s : String) : TokenType :=
  if s = "var" then .Var
  else if s = "true" then .Truth
  else if s = "false" then .Truth
  else if s = "if" then .If
  else .Name

/-- Outcome of one `Lexer::next` call: a token plus the new state, end of
stream (end of input, or a text-literal error that ends the iterator), or
a `panic!` on an unrecognized character. -/
inductive LexStep
  | tok (t : Token) (st : LexState)
  | done
  | panicked (c : Char)

/-- `<Lexer as Iterator>::next`. -/
def nextToken (st0 : LexState) : LexStep :=
  let st := ignoreWhitespace (st0.code.length + 1) st0
  match currentChar st with
  | none => .done
  | some curr =>
      let line := st.current_line
      let column := st.current_column
      if curr.isAlpha then
        let (value, st1) := takeAlpha (st.code.length + 1) st ""
        .tok { token_type := keywordType value, value := value, line := line, column := column } st1
      else if curr.isDigit then
        let (value, st1) := takeDigits (st.code.length + 1) st ""
        .tok { token_type := .Number, value := value, line := line, column := column } st1
      else if curr = '\"' then
        match textLit (st.code.length + 1) (advance st) "" with
        | some (value, st1) =>
            .tok { token_type := .Text, value := value, line := line, column := column } st1
        | none => .done
      else if curr = '\n' then
        .tok { token_type := .NewLine, value := "\n", line := line, column := column } (advance st)
      else if curr = '=' then
        .tok { token_type := .Assign, value := "=", line := line, column := column } (advance st)
      else if curr = '{' then
        .tok { token_type := .LeftCurly, value := "\x7b", line := line, column := column } (advance st)
      else if curr = '}' then
        .tok { token_type := .RightCurly, value := "\x7d", line := line, column := column } (advance st)
      else if curr = ';' then
        .tok { token_type := .SemiColon, value := ";", line := line, column := column } (advance st)
      else if curr = ':' then
        .tok { token_type := .DebugPrint, value := ":", line := line, column := column } (advance st)
      else .panicked curr

/-- `lexer.collect::<Vec<_>>()`: drive `next` to the end of the stream.
`Except.error c` models the process-aborting `panic!("Unexpected
character: ...")`. -/
def lexLoop : Nat → LexState → List Token → Except Char (List Token)
  | 0, _, acc => .ok acc.reverse
  | fuel + 1, st, acc =>
      match nextToken st with
      | .tok t st1 => lexLoop fuel st1 (t :: acc)
      | .done => .ok acc.reverse
      | .panicked c => .error c

/-- Lex a whole input.  Fuel `length + 1` suffices: every token consumes
at least one character of the input. -/
def lex (s : String) : Except Char (List Token) :=
  lexLoop (s.length + 1) (Lexer.new s) []

/-- The untyped syntax tree `Ast` of `base/parser.rs`. -/
inductive Ast
  | Block (stmts : List Ast)
  | Number (t : Token)
  | Truth (t : Token)
  | Text (t : Token)
  | Variable (t : Token)
  | Assignment (target : Ast) (value : Ast)
  | Declaration (name : Token) (init : Ast)
  | FunctionCall (callee : Ast) (args : List Ast)
  | If (cond : Ast) (body : Ast)
  | DebugPrint (e : Ast)
deriving Repr

/-- Parser errors.  `suddenEndOfFile` and `unexpectedToken` are the
`Error` enum of `base/parser.rs`; `unexpectedFactor` is the
`anyhow!("Unexpected token ...")` of `parse_factor`; `withContext` models
`anyhow::Context`, whose message is the one displayed at the outermost
boundary; `panicked` models a `.unwrap()` on `None` (process abort);
`outOfFuel` is a modelling artifact never reached for the fuel the entry
points pass. -/
inductive PErr
  | suddenEndOfFile
  | unexpectedToken (expected : TokenType) (got : Token)
  | unexpectedFactor (got : TokenType)
  | withContext (msg : String) (inner : PErr)
  | panicked (msg : String)
  | outOfFuel
deriving Repr

/-- The message `anyhow` renders for a parser error (outermost context). -/
def PErr.describe : PErr → String
  | .suddenEndOfFile => "Unexpected end of file"
  | .unexpectedToken expected got =>
      "Expected token of type " ++ ttDebug expected ++ " but got " ++ tokenDebug got
  | .unexpectedFactor got => "Unexpected token " ++ ttDebug got
  | .withContext msg _ => msg
  | .panicked msg => msg
  | .outOfFuel => "modelling fuel exhausted"

/-- `Parser::consume`: peek, check the kind, consume on match.  On a
mismatch nothing is consumed and the error carries expected and actual. -/
def consume (kind : TokenType) (ts : List Token) : Except PErr (Token × List Token) :=
  match ts with
  | [] => .error .suddenEndOfFile
  | t :: rest =>
      if t.token_type = kind then .ok (t, rest)
      else .error (.unexpectedToken kind t)

/-- `Parser::ignore_newline`: drop leading `NewLine` tokens. -/
def ignoreNewline : List Token → List Token
  | [] => []
  | t :: rest => if t.token_type = .NewLine then ignoreNewline rest else t :: rest

/-- `Parser::check_statement_terminator`: end of input is fine; a
semicolon is consumed together with the newline run after it; a
block-closing `}` is accepted without being consumed; anything else must
be at least one newline (plus the newline run after it). -/
def checkStatementTerminator (ts : List Token) : Except PErr (List Token) :=
  match ts with
  | [] => .ok []
  | t :: _ =>
      if t.token_type = .SemiColon then
        match consume .SemiColon ts with
        | .ok (_, rest) => .ok (ignoreNewline rest)
        | .error e => .error e
      else if t.token_type = .RightCurly then .ok ts
      else
        match consume .NewLine ts with
        | .ok (_, rest) => .ok (ignoreNewline rest)
        | .error e => .error e

/-- `Parser::parse_factor`: a literal or a variable reference. -/
def parseFactor (ts0 : List Token) : Except PErr (Ast × List Token) :=
  let ts := ignoreNewline ts0
  match ts with
  | [] => .error .suddenEndOfFile
  | t :: rest =>
      match t.token_type with
      | .Number => .ok (.Number t, rest)
      | .Truth => .ok (.Truth t, rest)
      | .Text => .ok (.Text t, rest)
      | .Name => .ok (.Variable t, rest)
      | tt => .error (.unexpectedFactor tt)

mutual

/-- `Parser::parse_statement`: a statement followed by its terminator. -/
def parseStatement : Nat → List Token → Except PErr (Ast × List Token)
  | 0, _ => .error .outOfFuel
  | fuel + 1, ts => do
      let (node, ts1) ← parseStatementNoTerm fuel ts
      let ts2 ← checkStatementTerminator ts1
      .ok (node, ts2)

/-- `Parser::parse_statement_without_terminator`.  The Rust code calls
`self.tokens.peek().unwrap()`, which panics when only newlines remain. -/
def parseStatementNoTerm : Nat → List Token → Except PErr (Ast × List Token)
  | 0, _ => .error .outOfFuel
  | fuel + 1, ts0 =>
      let ts := ignoreNewline ts0
      match ts with
      | [] => .error (.panicked "called Option::unwrap() on a None value")
      | t :: _ =>
          match t.token_type with
          | .Var => parseDeclaration fuel ts
          | .LeftCurly => parseBlock fuel ts
          | .If => parseIf fuel ts
          | .DebugPrint =>
              match consume .DebugPrint ts with
              | .error _ => .error (.panicked "called Result::unwrap() on an Err value")
              | .ok (_, ts1) => do
                  let (e, ts2) ← parseSuffixed fuel ts1
                  .ok (.DebugPrint e, ts2)
          | _ => parseSuffixed fuel ts

/-- `Parser::parse_block`: `{`, leading newlines, statements until `}`. -/
def parseBlock : Nat → List Token → Except PErr (Ast × List Token)
  | 0, _ => .error .outOfFuel
  | fuel + 1, ts => do
      let (_, ts1) ← consume .LeftCurly ts
      let ts2 := ignoreNewline ts1
      let (nodes, ts3) ← parseBlockLoop fuel ts2
      let (_, ts4) ← consume .RightCurly ts3
      .ok (.Block nodes, ts4)

/-- The statement loop inside `Parser::parse_block`. -/
def parseBlockLoop : Nat → List Token → Except PErr (List Ast × List Token)
  | 0, _ => .error .outOfFuel
  | fuel + 1, ts =>
      match ts with
      | [] => .ok ([], ts)
      | t :: _ =>
          if t.token_type = .RightCurly then .ok ([], ts)
          else do
            let (node, ts1) ← parseStatement fuel ts
            let (nodes, ts2) ← parseBlockLoop fuel ts1
            .ok (node :: nodes, ts2)

/-- `Parser::parse_declaration`: `var <name> = <postfix-expression>`. -/
def parseDeclaration : Nat → List Token → Except PErr (Ast × List Token)
  | 0, _ => .error .outOfFuel
  | fuel + 1, ts => do
      let (_, ts1) ← consume .Var ts
      let ts2 := ignoreNewline ts1
      let (name, ts3) ← consume .Name ts2
      let ts4 ←
        match consume .Assign ts3 with
        | .ok (_, rest) => pure rest
        | .error e => .error (PErr.withContext "Expected an assignment statement (=)" e)
      let (e, ts5) ← parseSuffixed fuel ts4
      .ok (.Declaration name e, ts5)

/-- `Parser::parse_assignment`: the `= <postfix-expression>` suffix. -/
def parseAssignmentFrom : Nat → Ast → List Token → Except PErr (Ast × List Token)
  | 0, _, _ => .error .outOfFuel
  | fuel + 1, target, ts => do
      let ts1 := ignoreNewline ts
      let ts2 ←
        match consume .Assign ts1 with
        | .ok (_, rest) => pure rest
        | .error e => .error (PErr.withContext "Expected an assignment statement (=)" e)
      let (e, ts3) ← parseSuffixed fuel ts2
      .ok (.Assignment target e, ts3)

/-- `Parser::parse_function_call`: the `( <args> )` suffix.  The Rust code
references the token kinds `LeftParen`, `RightParen`, `Comma`, none of
which the lexer can produce. -/
def parseFunctionCallFrom : Nat → Ast → List Token → Except PErr (Ast × List Token)
  | 0, _, _ => .error .outOfFuel
  | fuel + 1, callee, ts => do
      let ts1 := ignoreNewline ts
      let (_, ts2) ← consume .LeftParen ts1
      let ts3 := ignoreNewline ts2
      let (args, ts4) ← parseCallArgs fuel ts3
      let (_, ts5) ← consume .RightParen ts4
      .ok (.FunctionCall callee args, ts5)

/-- The argument loop inside `Parser::parse_function_call`. -/
def parseCallArgs : Nat → List Token → Except PErr (List Ast × List Token)
  | 0, _ => .error .outOfFuel
  | fuel + 1, ts =>
      match ts with
      | [] => .ok ([], ts)
      | t :: _ =>
          if t.token_type = .RightParen then .ok ([], ts)
          else do
            let (a, ts1) ← parseSuffixed fuel ts
            let ts2 := ignoreNewline ts1
            match ts2 with
            | t2 :: rest2 =>
                if t2.token_type = .Comma then do
                  let (as2, ts3) ← parseCallArgs fuel rest2
                  .ok (a :: as2, ts3)
                else .ok ([a], ts2)
            | [] => .ok ([a], ts2)

/-- `Parser::parse_postfix`: a factor followed by any mixture of
assignment and call suffixes. -/
def parseSuffixed : Nat → List Token → Except PErr (Ast × List Token)
  | 0, _ => .error .outOfFuel
  | fuel + 1, ts => do
      let (e, ts1) ← parseFactor ts
      let ts2 := ignoreNewline ts1
      parseSuffixLoop fuel e ts2

/-- The suffix loop inside `Parser::parse_postfix`. -/
def parseSuffixLoop : Nat → Ast → List Token → Except PErr (Ast × List Token)
  | 0, _, _ => .error .outOfFuel
  | fuel + 1, e, ts =>
      match ts with
      | [] => .ok (e, ts)
      | t :: _ =>
          match t.token_type with
          | .Assign => do
              let (e2, ts2) ← parseAssignmentFrom fuel e ts
              parseSuffixLoop fuel e2 ts2
          | .LeftParen => do
              let (e2, ts2) ← parseFunctionCallFrom fuel e ts
              parseSuffixLoop fuel e2 ts2
          | _ => .ok (e, ts)

/-- `Parser::parse_if`: `if <postfix-expression> <statement>`. -/
def parseIf : Nat → List Token → Except PErr (Ast × List Token)
  | 0, _ => .error .outOfFuel
  | fuel + 1, ts => do
      let (_, ts1) ← consume .If ts
      let (cond, ts2) ← parseSuffixed fuel ts1
      let (body, ts3) ← parseStatement fuel ts2
      .ok (.If cond body, ts3)

/-- The statement loop inside `Parser::statement_list`. -/
def statementListLoop : Nat → List Token → Except PErr (List Ast)
  | 0, _ => .error .outOfFuel
  | fuel + 1, ts =>
      match ts with
      | [] => .ok []
      | t :: _ =>
          if t.token_type = .RightCurly then .ok []
          else do
            let (node, ts1) ← parseStatement fuel ts
            let nodes ← statementListLoop fuel ts1
            .ok (node :: nodes)

end

/-- `Parser::statement_list`: leading newlines, then either an immediate
`}` (consumed, empty list, the remaining tokens are dropped) or
statements until `}` or end of input.  The fuel handed to the loop far
exceeds the recursion depth reachable from that many tokens. -/
def statementList (ts : List Token) : Except PErr (List Ast) :=
  let ts1 := ignoreNewline ts
  match consume .RightCurly ts1 with
  | .ok _ => .ok []
  | .error _ => statementListLoop (8 * ts1.length + 16) ts1

/-- Runtime-error outcome of the analysis/evaluation stages: `err` is an
`anyhow::Result` error returned to the caller, `panicked` is a Rust
`panic!` / `.expect(..)` / `.unwrap()` (which aborts the process). -/
inductive RErr
  | err (msg : String)
  | panicked (msg : String)
deriving DecidableEq, Repr

/-- Association-list model of `HashMap<Uuid, V>`: `insert` replaces an
existing key in place or appends. -/
def assocInsert {α : Type} : List (Nat × α) → Nat → α → List (Nat × α)
  | [], k, v => [(k, v)]
  | (k2, v2) :: rest, k, v =>
      if k2 = k then (k, v) :: rest else (k2, v2) :: assocInsert rest k v

/-- Association-list model of `HashMap::get`. -/
def assocLookup {α : Type} : List (Nat × α) → Nat → Option α
  | [], _ => none
  | (k2, v2) :: rest, k => if k2 = k then some v2 else assocLookup rest k

/-- `SymbolVariant` of `base/semantic_analyzer.rs`.  The payload structs
`VariableSymbol`, `FunctionTypeSymbol`, `NativeFunctionSymbol` are
inlined. -/
inductive SymbolVariant
  | Variable (type_id : Nat)
  | Primitive
  | FunctionType (return_id : Option Nat) (argument_ids : List Nat)
  | NativeFunction (type_id : Nat)
deriving DecidableEq, Repr

/-- `Symbol` of `base/semantic_analyzer.rs`.  `symbol_id` models the
`Uuid` handed out by `Uuid::new_v4()`. -/
structure Symbol where
  name : String
  symbol_id : Nat
  variant : SymbolVariant
deriving DecidableEq, Repr

/-- `SymbolTable` (one scope): id, optional parent id, and the symbol map
keyed by symbol id. -/
structure SymbolTable where
  name : String
  table_id : Nat
  parent : Option Nat
  symbols : List (Nat × Symbol)
deriving DecidableEq, Repr

/-- `SymbolTable::lookup`: scan the stored symbols for one with the given
name (`HashMap::values()` order modelled as insertion order; the scopes
arising here never hold two symbols of equal name). -/
def SymbolTable.lookupName (tbl : SymbolTable) (nm : String) : Option Symbol :=
  (tbl.symbols.find? (fun kv => kv.2.name = nm)).map (fun kv => kv.2)

/-- `SemanticAnalyzer`: the scope forest keyed by table id, the current /
repl / global scope ids, and the counter modelling `Uuid::new_v4()`. -/
structure SemanticAnalyzer where
  scopes : List (Nat × SymbolTable)
  current_scope_id : Nat
  repl_scope_id : Nat
  global_scope_id : Nat
  fresh : Nat
deriving DecidableEq, Repr

/-- The `lazy_static` primitive type symbols, with fixed ids 0..3. -/
def INT_TYPE : Symbol := { name := "int", symbol_id := 0, variant := .Primitive }

/-- See `INT_TYPE`. -/
def DEC_TYPE : Symbol := { name := "dec", symbol_id := 1, variant := .Primitive }

/-- See `INT_TYPE`.  The primitive is named `string` in the source. -/
def TEXT_TYPE : Symbol := { name := "string", symbol_id := 2, variant := .Primitive }

/-- See `INT_TYPE`. -/
def TRUTH_TYPE : Symbol := { name := "truth", symbol_id := 3, variant := .Primitive }

/-- The global scope built by `SemanticAnalyzer::new` (table id 4),
holding the four primitive type symbols. -/
def globalTable : SymbolTable :=
  { name := "global_table", table_id := 4, parent := none,
    symbols := [(0, INT_TYPE), (1, DEC_TYPE), (2, TEXT_TYPE), (3, TRUTH_TYPE)] }

/-- The REPL scope built by `SemanticAnalyzer::new` (table id 5), a
permanent child of the global scope. -/
def replTable : SymbolTable :=
  { name := "repl_scope", table_id := 5, parent := some 4, symbols := [] }

/-- `SemanticAnalyzer::new`: global and repl scopes; the current scope is
the *global* one. -/
def SemanticAnalyzer.new : SemanticAnalyzer :=
  { scopes := [(4, globalTable), (5, replTable)],
    current_scope_id := 4, repl_scope_id := 5, global_scope_id := 4, fresh := 6 }

/-- `SemanticAnalyzer::push_scope`: just retargets the current scope id. -/
def pushScope (sa : SemanticAnalyzer) (id : Nat) : SemanticAnalyzer :=
  { sa with current_scope_id := id }

/-- `SemanticAnalyzer::pop_scope`: the current scope must exist (else the
`anyhow` error of `current_scope`) and must have a parent (else the
`.expect(..)` panic). -/
def popScope (sa : SemanticAnalyzer) : Except RErr SemanticAnalyzer :=
  match assocLookup sa.scopes sa.current_scope_id with
  | none => .error (.err "There should always be a scope")
  | some tbl =>
      match tbl.parent with
      | none => .error (.panicked "If you are popping a scope, it must have a parent")
      | some p => .ok { sa with current_scope_id := p }

/-- `SymbolTable::symbol_from_node` walking the parent chain via
`parent_scope`; only `Ast::Variable` nodes are accepted.  The fuel bounds
the chain length; callers pass `scopes.length + 1`, enough for any
acyclic chain over the stored scopes. -/
def symbolFromNodeTbl (sa : SemanticAnalyzer) :
    Nat → SymbolTable → Ast → Except RErr (Option Symbol)
  | 0, _, _ => .ok none
  | fuel + 1, tbl, node =>
      match node with
      | .Variable t =>
          match tbl.lookupName t.value with
          | some s => .ok (some s)
          | none =>
              match tbl.parent with
              | none => .ok none
              | some p =>
                  match assocLookup sa.scopes p with
                  | none => .ok none
                  | some ptbl => symbolFromNodeTbl sa fuel ptbl node
      | _ => .error (.err "Expected a variable")

/-- `SemanticAnalyzer::symbol_from_node`: resolve starting from the
current scope (an `anyhow` error if the current scope id is dangling). -/
def symbolFromNodeSA (sa : SemanticAnalyzer) (node : Ast) : Except RErr (Option Symbol) :=
  match assocLookup sa.scopes sa.current_scope_id with
  | none => .error (.err "There should always be a scope")
  | some tbl => symbolFromNodeTbl sa (sa.scopes.length + 1) tbl node

/-- `SymbolTable::symbol_from_id` walking the parent chain. -/
def symbolFromIdChain (sa : SemanticAnalyzer) :
    Nat → SymbolTable → Nat → Option Symbol
  | 0, _, _ => none
  | fuel + 1, tbl, id =>
      match assocLookup tbl.symbols id with
      | some s => some s
      | none =>
          match tbl.parent with
          | none => none
          | some p =>
              match assocLookup sa.scopes p with
              | none => none
              | some ptbl => symbolFromIdChain sa fuel ptbl id

/-- `SymbolTable::name_of_type` walking the parent chain. -/
def nameOfTypeChain (sa : SemanticAnalyzer) :
    Nat → SymbolTable → Nat → Option String
  | 0, _, _ => none
  | fuel + 1, tbl, id =>
      match assocLookup tbl.symbols id with
      | some s => some s.name
      | none =>
          match tbl.parent with
          | none => none
          | some p =>
              match assocLookup sa.scopes p with
              | none => none
              | some ptbl => nameOfTypeChain sa fuel ptbl id

/-- `SemanticAnalyzer::name_of_type`: start from the current scope (an
`anyhow` error if the current scope id is dangling). -/
def nameOfType (sa : SemanticAnalyzer) (id : Nat) : Except RErr (Option String) :=
  match assocLookup sa.scopes sa.current_scope_id with
  | none => .error (.err "There should always be a scope")
  | some tbl => .ok (nameOfTypeChain sa (sa.scopes.length + 1) tbl id)

/-- The annotated tree `SemanticAst` of `base/semantic_analyzer.rs`. -/
inductive SemanticAst
  | Block (stmts : List SemanticAst) (table_id : Nat)
  | Number (t : Token)
  | Truth (t : Token)
  | Text (t : Token)
  | Variable (symbol_id : Nat)
  | Declaration (symbol_id : Nat) (uuid : Nat) (init : SemanticAst)
  | Assignment (symbol_id : Nat) (value : SemanticAst)
  | FunctionCall (callee : SemanticAst) (args : List SemanticAst)
  | If (cond : SemanticAst) (body : SemanticAst)
  | DebugPrint (e : SemanticAst)
deriving Repr

/-- `SemanticResult`: the annotated node and the inferred type id
(`None` for statements). -/
structure SemanticResult where
  node : SemanticAst
  type_id : Option Nat
deriving Repr

/-- The `Type mismatch` message of the analyzer (Rust renders the two
names with `{:?}`, which adds the quotes). -/
def mismatchMsg (expected got : String) : String :=
  "Type mismatch: Expected type \"" ++ expected ++ "\" but got type \"" ++ got ++ "\""

mutual

/-- `SemanticAnalyzer::analyze_node`.  Fueled (structurally recursive in
the fuel); the entry points pass more fuel than any tree of the given
token count can consume. -/
def analyzeNode : Nat → SemanticAnalyzer → Ast → Except RErr (SemanticAnalyzer × SemanticResult)
  | 0, _, _ => .error (.err "modelling fuel exhausted")
  | fuel + 1, sa, ast =>
      match ast with
      | .Block nodes =>
          let id := sa.fresh
          let scope : SymbolTable :=
            { name := "block", table_id := id, parent := some sa.current_scope_id, symbols := [] }
          let sa1 : SemanticAnalyzer :=
            { sa with fresh := sa.fresh + 1,
                      scopes := assocInsert sa.scopes id scope,
                      current_scope_id := id }
          do
            let (sa2, sems) ← analyzeNodes fuel sa1 nodes
            let sa3 ← popScope sa2
            .ok (sa3, { node := .Block sems id, type_id := none })
      | .Number t => .ok (sa, { node := .Number t, type_id := some INT_TYPE.symbol_id })
      | .Truth t => .ok (sa, { node := .Truth t, type_id := some TRUTH_TYPE.symbol_id })
      | .Text t => .ok (sa, { node := .Text t, type_id := some TEXT_TYPE.symbol_id })
      | .Variable t => do
          let opt ← symbolFromNodeSA sa (.Variable t)
          match opt with
          | none => .error (.err ("Variable " ++ t.value ++ " not found"))
          | some symbol =>
              match symbol.variant with
              | .Variable tid =>
                  .ok (sa, { node := .Variable symbol.symbol_id, type_id := some tid })
              | .NativeFunction tid =>
                  .ok (sa, { node := .Variable symbol.symbol_id, type_id := some tid })
              | _ => .error (.panicked "Symbol does not contain a value")
      | .Declaration tok node => do
          let (sa1, resultNode) ← analyzeNode fuel sa node
          match resultNode.type_id with
          | none =>
              .error (.err "Variable initialization must be a valid expression (Must return value)")
          | some tid => do
              let dup ← symbolFromNodeSA sa1 (.Variable tok)
              match dup with
              | some _ =>
                  .error (.err ("Variable called " ++ tok.value ++ " already exists."))
              | none =>
                  match assocLookup sa1.scopes sa1.current_scope_id with
                  | none => .error (.err "There should always be a scope")
                  | some tbl =>
                      let sid := sa1.fresh
                      let symbol : Symbol :=
                        { name := tok.value, symbol_id := sid, variant := .Variable tid }
                      let tbl2 := { tbl with symbols := assocInsert tbl.symbols sid symbol }
                      let sa2 : SemanticAnalyzer :=
                        { sa1 with fresh := sa1.fresh + 1,
                                   scopes := assocInsert sa1.scopes sa1.current_scope_id tbl2 }
                      .ok (sa2, { node := .Declaration sid sid resultNode.node, type_id := none })
      | .Assignment target node => do
          let (sa1, resultNode) ← analyzeNode fuel sa node
          let dup ← symbolFromNodeSA sa1 target
          match dup with
          | none => .error (.err "Symbol not found")
          | some targetSymbol =>
              match targetSymbol.variant with
              | .Variable tid =>
                  match resultNode.type_id with
                  | none =>
                      .error (.err "Assignment must be a valid expression (Must return value)")
                  | some vt =>
                      if vt = tid then
                        .ok (sa1, { node := .Assignment targetSymbol.symbol_id resultNode.node,
                                    type_id := none })
                      else do
                        let en ← nameOfType sa1 tid
                        let gn ← nameOfType sa1 vt
                        .error (.err (mismatchMsg (en.getD "<unknown>") (gn.getD "<unknown>")))
              | _ => .error (.panicked "Symbol is not a variable")
      | .FunctionCall callee args => do
          let (sa1, calleeResult) ← analyzeNode fuel sa callee
          match calleeResult.type_id with
          | none => .error (.err "")
          | some ctid =>
              match assocLookup sa1.scopes sa1.current_scope_id with
              | none => .error (.err "There should always be a scope")
              | some tbl =>
                  match symbolFromIdChain sa1 (sa1.scopes.length + 1) tbl ctid with
                  | none => .error (.err "Symbol not found")
                  | some calleeSymbol =>
                      match calleeSymbol.variant with
                      | .FunctionType retId argIds =>
                          if args.length = argIds.length then do
                            let (sa2, argNodes) ← analyzeArgs fuel sa1 args argIds
                            .ok (sa2, { node := .FunctionCall calleeResult.node argNodes,
                                        type_id := retId })
                          else .error (.err "Incorrect number of arguments")
                      | _ => .error (.panicked "Symbol is not a function")
      | .If cond body => do
          let (sa1, condR) ← analyzeNode fuel sa cond
          let (sa2, bodyR) ← analyzeNode fuel sa1 body
          match condR.type_id with
          | none => .error (.err "If condition must be a valid expression (Must return value)")
          | some ct =>
              if ct = TRUTH_TYPE.symbol_id then
                .ok (sa2, { node := .If condR.node bodyR.node, type_id := none })
              else .error (.err "If condition must be a truth")
      | .DebugPrint node => do
          let (sa1, r) ← analyzeNode fuel sa node
          match r.type_id with
          | none => .error (.err "DebugPrint must be a valid expression (Must return value)")
          | some _ => .ok (sa1, { node := .DebugPrint r.node, type_id := none })

/-- The statement loop of the `Ast::Block` arm of `analyze_node`. -/
def analyzeNodes : Nat → SemanticAnalyzer → List Ast →
    Except RErr (SemanticAnalyzer × List SemanticAst)
  | 0, _, _ => .error (.err "modelling fuel exhausted")
  | _ + 1, sa, [] => .ok (sa, [])
  | fuel + 1, sa, n :: rest => do
      let (sa1, r) ← analyzeNode fuel sa n
      let (sa2, rs) ← analyzeNodes fuel sa1 rest
      .ok (sa2, r.node :: rs)

/-- The argument loop of the `Ast::FunctionCall` arm of `analyze_node`:
analyze each argument in order and require its type to equal the
corresponding parameter type (the argument count was checked before, so
the parameter list never runs short; if it did, the Rust indexing
`argument_ids[i]` would panic). -/
def analyzeArgs : Nat → SemanticAnalyzer → List Ast → List Nat →
    Except RErr (SemanticAnalyzer × List SemanticAst)
  | 0, _, _, _ => .error (.err "modelling fuel exhausted")
  | _ + 1, sa, [], _ => .ok (sa, [])
  | fuel + 1, sa, a :: args, expIds =>
      match expIds with
      | [] => .error (.panicked "index out of bounds")
      | expId :: expRest => do
          let (sa1, argResult) ← analyzeNode fuel sa a
          match argResult.type_id with
          | none =>
              .error (.err "Function argument must be a valid expression (Must return value)")
          | some argTy =>
              if argTy = expId then do
                let (sa2, rest) ← analyzeArgs fuel sa1 args expRest
                .ok (sa2, argResult.node :: rest)
              else do
                let en ← nameOfType sa1 expId
                let gn ← nameOfType sa1 argTy
                .error (.err (mismatchMsg (en.getD "<unknown>") (gn.getD "<unknown>")))

end

/-- `SemanticAnalyzer::analyze` (the `clone` of the input tree is
semantically a no-op). -/
def analyze (fuel : Nat) (sa : SemanticAnalyzer) (ast : Ast) :
    Except RErr (SemanticAnalyzer × SemanticResult) :=
  analyzeNode fuel sa ast

/-- The name-collection loop of `construct_type_name` (each
`name_of_type` call can fail; a missing name renders as `<unknown>`). -/
def typeNamesLoop (sa : SemanticAnalyzer) : List Nat → Except RErr (List String)
  | [] => .ok []
  | id :: rest => do
      let n ← nameOfType sa id
      let ns ← typeNamesLoop sa rest
      .ok (n.getD "<unknown>" :: ns)

/-- `FunctionTypeSymbol::construct_type_name`.  The function's own doc
comment promises the formats `<arg1,...,argn:return>`, `<:return>`,
`<arg1:>`, `<:>`, but the implementation only joins the argument type
names with commas inside angle brackets: it never appends the `:` or the
return type name, and ignores `return_id` entirely (hence the unused
parameter here). -/
def constructTypeName (_return_id : Option Nat) (argument_ids : List Nat)
    (sa : SemanticAnalyzer) : Except RErr String := do
  let names ← typeNamesLoop sa argument_ids
  .ok ("<" ++ String.intercalate "," names ++ ">")

/-- `PrimitiveValue` of `exec/value.rs`.  The `Dec(f64)` payload is
modelled by `Float`; no code path of the embedded pipeline ever
constructs it (no grammar form produces a decimal). -/
inductive PrimitiveValue
  | Int (i : Int)
  | Dec (x : Float)
  | Text (s : String)
  | Bool (b : Bool)
deriving Repr

/-- `ValueVariant` of `exec/value.rs`.  The `Function` payload (an
`Arc<NativeFn>` host closure) is opaque to the core: the interpreter
never calls it (it has no `FunctionCall` arm), so it carries no data
here. -/
inductive ValueVariant
  | Nothing
  | Primitive (p : PrimitiveValue)
  | Function
deriving Repr

/-- `Value` of `exec/value.rs`; `uuid` models `Uuid::new_v4()`. -/
structure Value where
  content : ValueVariant
  uuid : Nat
deriving Repr

/-- `Interpreter` of `exec/interpreter.rs`: value table, analyzer,
symbol-to-value binding map, plus the counter modelling the
`Uuid::new_v4()` calls of `Value::new`. -/
structure Interp where
  value_table : List (Nat × Value)
  sa : SemanticAnalyzer
  symbol_to_value : List (Nat × Nat)
  fresh : Nat
deriving Repr

/-- `Interpreter::new`. -/
def Interpreter.new : Interp :=
  { value_table := [], sa := SemanticAnalyzer.new, symbol_to_value := [], fresh := 0 }

/-- `token.value.parse::<i64>()` on the digit-run token values the lexer
produces: all-digit, non-empty, within `i64` range (overflow is a
`ParseIntError` returned as an `anyhow` error). -/
def parseI64 (s : String) : Option Int :=
  if s.length ≠ 0 && s.data.all Char.isDigit then
    let n := s.data.foldl (fun acc c => acc * 10 + (c.toNat - 48)) 0
    if n ≤ 9223372036854775807 then some (Int.ofNat n) else none
  else none

/-- `token.value.parse::<bool>()`. -/
def parseBoolRust (s : String) : Option Bool :=
  if s = "true" then some true else if s = "false" then some false else none

/-- The symbol resolution used by the `Variable` and `Assignment` arms of
`Interpreter::interpret`: `current_scope().expect(..)` (panic if the
current scope id dangles) followed by `symbol_from_id` over the chain,
`ok_or("Symbol not found")`. -/
def resolveSymbol (sa : SemanticAnalyzer) (id : Nat) : Except RErr Symbol :=
  match assocLookup sa.scopes sa.current_scope_id with
  | none => .error (.panicked "There is always a scope")
  | some tbl =>
      match symbolFromIdChain sa (sa.scopes.length + 1) tbl id with
      | some s => .ok s
      | none => .error (.err "Symbol not found")

/-- The state produced by the `Assignment` arm of `interpret` after the
value is computed: bind the resolved symbol id to the new value id and
insert the value into the value table (overwriting on an existing id). -/
def assignState (ist : Interp) (symId : Nat) (v : Value) : Interp :=
  { ist with symbol_to_value := assocInsert ist.symbol_to_value symId v.uuid,
             value_table := assocInsert ist.value_table v.uuid v }

mutual

/-- `Interpreter::interpret`.  Fueled like `analyzeNode`.  The
`SemanticAst::FunctionCall` arm does not exist in the Rust source (the
match is non-exhaustive, a compile error); it is modelled as an abort. -/
def interpret : Nat → Interp → SemanticAst → Except RErr (Interp × Option Value)
  | 0, _, _ => .error (.err "modelling fuel exhausted")
  | fuel + 1, ist, node =>
      match node with
      | .Block nodes scopeId =>
          let ist1 := { ist with sa := pushScope ist.sa scopeId }
          do
            let ist2 ← interpretSeq fuel ist1 nodes
            let sa2 ← popScope ist2.sa
            .ok ({ ist2 with sa := sa2 }, none)
      | .Number t =>
          match parseI64 t.value with
          | none => .error (.err ("invalid i64 literal: " ++ t.value))
          | some i =>
              .ok ({ ist with fresh := ist.fresh + 1 },
                   some { content := .Primitive (.Int i), uuid := ist.fresh })
      | .Truth t =>
          match parseBoolRust t.value with
          | none => .error (.err ("invalid bool literal: " ++ t.value))
          | some b =>
              .ok ({ ist with fresh := ist.fresh + 1 },
                   some { content := .Primitive (.Bool b), uuid := ist.fresh })
      | .Text t =>
          .ok ({ ist with fresh := ist.fresh + 1 },
               some { content := .Primitive (.Text t.value), uuid := ist.fresh })
      | .Variable id => do
          let symbol ← resolveSymbol ist.sa id
          match assocLookup ist.symbol_to_value symbol.symbol_id with
          | none => .error (.panicked "no entry found for key")
          | some vid =>
              match assocLookup ist.value_table vid with
              | none => .error (.err "Value not found")
              | some v => .ok (ist, some v)
      | .Declaration target _ init => do
          let (ist1, r) ← interpret fuel ist init
          match r with
          | none => .error (.err "Semantic analysis error. Should have value")
          | some v =>
              match assocLookup ist1.sa.scopes ist1.sa.current_scope_id with
              | none => .error (.panicked "There is always a scope")
              | some tbl =>
                  match assocLookup tbl.symbols target with
                  | none => .error (.err "Symbol not found")
                  | some symbol => .ok (assignState ist1 symbol.symbol_id v, none)
      | .Assignment targetId valueNode => do
          let (ist1, r) ← interpret fuel ist valueNode
          match r with
          | none => .error (.err "Semantic analysis error. Should have value")
          | some v => do
              let symbol ← resolveSymbol ist1.sa targetId
              .ok (assignState ist1 symbol.symbol_id v, none)
      | .FunctionCall _ _ =>
          .error (.panicked
            "non-exhaustive match: SemanticAst::FunctionCall is not handled by Interpreter::interpret")
      | .If cond body => do
          let (ist1, r) ← interpret fuel ist cond
          match r with
          | none => .error (.err "Semantic analysis error. Should have value")
          | some v =>
              match v.content with
              | .Primitive (.Bool true) => do
                  let (ist2, _) ← interpret fuel ist1 body
                  .ok (ist2, none)
              | _ => .ok (ist1, none)
      | .DebugPrint e => do
          let (ist1, _) ← interpret fuel ist e
          .ok (ist1, none)

/-- The statement loop of the `SemanticAst::Block` arm of `interpret`
(children are evaluated for side effects only). -/
def interpretSeq : Nat → Interp → List SemanticAst → Except RErr Interp
  | 0, _, _ => .error (.err "modelling fuel exhausted")
  | _ + 1, ist, [] => .ok ist
  | fuel + 1, ist, n :: rest => do
      let (ist1, _) ← interpret fuel ist n
      interpretSeq fuel ist1 rest

end

/-- The statement loop of `Interpreter::eval`: analyze each statement
against the current (repl) scope, interpret it, keep the last result. -/
def evalStatements (fuel : Nat) : Interp → List Ast → Option Value →
    Except RErr (Interp × Option Value)
  | ist, [], result => .ok (ist, result)
  | ist, node :: rest, _ => do
      let (sa1, semRes) ← analyze fuel ist.sa node
      let ist1 := { ist with sa := sa1 }
      let (ist2, r) ← interpret fuel ist1 semRes.node
      evalStatements fuel ist2 rest r

/-- `Interpreter::eval`, the evaluate entry point: lex (a `panic!` on an
unrecognized character aborts), parse a flat statement list, push the
repl scope, analyze-and-interpret each statement, pop the scope, return
the last result. -/
def eval (ist : Interp) (code : String) : Except RErr (Interp × Option Value) :=
  match lex code with
  | .error c => .error (.panicked ("Unexpected character: " ++ String.mk [c]))
  | .ok tokens =>
      match statementList tokens with
      | .error e =>
          match e with
          | .panicked m => .error (.panicked m)
          | pe => .error (.err pe.describe)
      | .ok statements =>
          let fuel := 8 * tokens.length + 16
          do
            let ist1 := { ist with sa := pushScope ist.sa ist.sa.repl_scope_id }
            let (ist2, result) ← evalStatements fuel ist1 statements none
            let sa3 ← popScope ist2.sa
            .ok ({ ist2 with sa := sa3 }, result)

/-- `NativeFunctionBindable::bind_void_function` for `Interpreter`
(`native/function.rs`): build the structural type name, a function-type
symbol (inserted into the global scope), a native-function symbol under
the given name (inserted into the *current* scope), and a callable value
inserted into the value table and bound to the symbol.  The host closure
itself is opaque (`ValueVariant.Function`). -/
def bindVoidFunction (ist : Interp) (name : String) : Except RErr Interp := do
  let ftn ← constructTypeName none [] ist.sa
  let sa0 := ist.sa
  let tid := sa0.fresh
  let functionType : Symbol := { name := ftn, symbol_id := tid, variant := .FunctionType none [] }
  let fid := sa0.fresh + 1
  let functionSymbol : Symbol := { name := name, symbol_id := fid, variant := .NativeFunction tid }
  let sa1 := { sa0 with fresh := sa0.fresh + 2 }
  match assocLookup sa1.scopes sa1.global_scope_id with
  | none => .error (.panicked "There is always a global scope")
  | some g =>
      let sa2 := { sa1 with
        scopes := assocInsert sa1.scopes sa1.global_scope_id
          { g with symbols := assocInsert g.symbols tid functionType } }
      match assocLookup sa2.scopes sa2.current_scope_id with
      | none => .error (.panicked "There is always a scope")
      | some c =>
          let sa3 := { sa2 with
            scopes := assocInsert sa2.scopes sa2.current_scope_id
              { c with symbols := assocInsert c.symbols fid functionSymbol } }
          let v : Value := { content := .Function, uuid := ist.fresh }
          .ok { ist with
                sa := sa3,
                fresh := ist.fresh + 1,
                value_table := assocInsert ist.value_table v.uuid v,
                symbol_to_value := assocInsert ist.symbol_to_value fid v.uuid }

/-- `Except.isOk` helper. -/
def isOkE {ε α : Type} : Except ε α → Bool
  | .ok _ => true
  | .error _ => false

/-- The interpreter state after an `eval` call (the state is unchanged if
the call failed; the failing evaluations in this development are only
inspected for their error). -/
def evalState (ist : Interp) (code : String) : Interp :=
  match eval ist code with
  | .ok (i, _) => i
  | .error _ => ist

/-- The value carried by a successful `eval` call. -/
def evalValue (ist : Interp) (code : String) : Option Value :=
  match eval ist code with
  | .ok (_, v) => v
  | .error _ => none

/-- The interpreter state after `bind_void_function("f")` on a fresh
interpreter (the registration itself succeeds). -/
def c4state : Interp :=
  match bindVoidFunction Interpreter.new "f" with
  | .ok i => i
  | .error _ => Interpreter.new

/-- The variable symbol `x : int` used by the concrete assignment
scenario states below. -/
def c6xsym : Symbol := { name := "x", symbol_id := 6, variant := .Variable 0 }

/-- An analyzer state whose repl scope holds `x : int` and is current
(the state `eval` would run statements in after `var x = 1`). -/
def c6sa : SemanticAnalyzer :=
  { scopes := [(4, globalTable), (5, { replTable with symbols := [(6, c6xsym)] })],
    current_scope_id := 5, repl_scope_id := 5, global_scope_id := 4, fresh := 7 }

/-- Interpreter state over `c6sa` with empty value table and bindings. -/
def c6ist : Interp := { value_table := [], sa := c6sa, symbol_to_value := [], fresh := 0 }

/-- The annotated literal `2` assigned in the concrete scenario. -/
def c6vnode : SemanticAst :=
  .Number { token_type := .Number, value := "2", line := 1, column := 0 }

/-- `c6ist` after evaluating the literal `2` (one fresh value id used). -/
def c6ist1 : Interp := { c6ist with fresh := 1 }

/-- The runtime value produced by evaluating the literal `2` in `c6ist`. -/
def c6w : Value := { content := .Primitive (.Int 2), uuid := 0 }

/-- The name token `x` of the concrete assignment scenario. -/
def c6xtok : Token := { token_type := .Name, value := "x", line := 1, column := 0 }

/-- The literal token `true` of the concrete assignment scenario. -/
def c6ttok : Token := { token_type := .Truth, value := "true", line := 1, column := 4 }

/-- The name token `int` used to witness the duplicate-declaration rule
(the primitive type symbol `int` lives in the global scope, so a
declaration of that name is rejected there). -/
def c2intTok : Token := { token_type := .Name, value := "int", line := 1, column := 4 }

/-- The name token `x` used to witness the accepting branch of the
declaration rule. -/
def c2xTok : Token := { token_type := .Name, value := "x", line := 1, column := 4 }

/-- The literal token `1` used as initializer in the declaration
witnesses. -/
def c2numTok : Token := { token_type := .Number, value := "1", line := 1, column := 8 }

/-- Interpreter state after `eval "var x = 1"` on a fresh interpreter. -/
def c7state : Interp := evalState Interpreter.new "var x = 1"

/-- Interpreter state after `eval "if true \x7b var z = 5 \x7d"` on a
fresh interpreter. -/
def c8state : Interp := evalState Interpreter.new "if true { var z = 5 }"

/-- Annotated condition `true` for the conditional witnesses. -/
def c9cond : SemanticAst :=
  .Truth { token_type := .Truth, value := "true", line := 1, column := 0 }

/-- Annotated condition `false` for the conditional witnesses. -/
def c9condF : SemanticAst :=
  .Truth { token_type := .Truth, value := "false", line := 1, column := 0 }

/-- Annotated body (the literal `7`) for the conditional witnesses. -/
def c9bodyS : SemanticAst :=
  .Number { token_type := .Number, value := "7", line := 1, column := 0 }

/-- Untyped condition of non-truth type (the literal `1`) for the
analysis half of the conditional witnesses. -/
def c9condAst : Ast :=
  .Number { token_type := .Number, value := "1", line := 1, column := 0 }

/-- Untyped body for the analysis half of the conditional witnesses. -/
def c9bodyAst : Ast :=
  .Truth { token_type := .Truth, value := "true", line := 1, column := 0 }

/-- The token `lex "\x7d"` produces. -/
def c10tok : Token := { token_type := .RightCurly, value := "\x7d", line := 1, column := 0 }

/- ------------------------------------------------------------------ -/
/- Theorems.                                                          -/
/- ------------------------------------------------------------------ -/

theorem ebind_ok {ε α β : Type} (a : α) (f : α → Except ε β) :
    (Except.ok a : Except ε α) >>= f = f a := rfl

theorem assocLookup_insert_self {α : Type} (m : List (Nat × α)) (k : Nat) (v : α) :
    assocLookup (assocInsert m k v) k = some v := by
  induction m with
  | nil => simp [assocInsert, assocLookup]
  | cons kv rest ih =>
      by_cases h : kv.1 = k
      · simp [assocInsert, assocLookup, h]
      · simp [assocInsert, assocLookup, h, ih]

theorem ignoreNewline_nl_run (nls l : List Token)
    (h : ∀ t ∈ nls, t.token_type = .NewLine) :
    ignoreNewline (nls ++ l) = ignoreNewline l := by
  induction nls with
  | nil => rfl
  | cons t rest ih =>
      have ht : t.token_type = TokenType.NewLine := h t (by simp)
      have hrest : ∀ u ∈ rest, u.token_type = TokenType.NewLine :=
        fun u hu => h u (by simp [hu])
      simp [ignoreNewline, ht, ih hrest]

/-- C1: the claim says evaluating `var x = 1\nvar y = x\n:y` succeeds,
declaring `x` and `y` and debug-printing the integer 1.  On the code it
does not: `Lexer::advance` skips a newline that immediately follows any
consumed character, so the token stream of this input contains *no*
`NewLine` token at all, and `check_statement_terminator` then rejects the
first declaration because the newline terminator it requires is missing.
`eval` returns that parse error. -/
theorem c1_newline_scenario_fails :
    eval Interpreter.new "var x = 1\nvar y = x\n:y" =
      .error (.err ("Expected token of type NewLine but got Token \x7b token_type: Var, value: \"var\", line: 2, column: 0 \x7d"))
    ∧ (lex "var x = 1\nvar y = x\n:y").map
        (fun ts => ts.countP (fun t => t.token_type == TokenType.NewLine)) = .ok 0 := by
  constructor
  · rfl
  · rfl

/-- C2 counterexample: the claim says declaring a name inside a nested
block succeeds when the same name exists only in an outer scope
(shadowing).  On the code it fails: the duplicate check of the
`Ast::Declaration` arm calls `SymbolTable::symbol_from_node`, which walks
the full parent chain, so the outer `a` is found and the inner
declaration is rejected. -/
theorem c2_shadowing_counterexample :
    eval Interpreter.new "var a = 1;{ var a = 2; }" =
      .error (.err "Variable called a already exists.") := by
  rfl

/-- C3: the claim says no input aborts the process.  On the code, an
unrecognized character such as `(` hits `panic!("Unexpected character:
...")` in `Lexer::next`, and an assignment whose target resolves to a
non-variable symbol (here the primitive type `int`) hits
`panic!("Symbol is not a variable")` in the analyzer: both abort instead
of returning an error. -/
theorem c3_panicking_inputs :
    eval Interpreter.new "(" = .error (.panicked "Unexpected character: (")
    ∧ eval Interpreter.new "int = 1" = .error (.panicked "Symbol is not a variable") := by
  constructor
  · rfl
  · rfl

/-- C4: the claim says that after `bind_void_function("f", ..)` the call
`f()` lexes, parses, analyzes and evaluates.  The registration itself
succeeds, but evaluating `f()` aborts in the lexer: `(` is an
unrecognized character (`TokenType` has no paren kinds; the kinds
`parse_function_call` names do not exist in the enum, and
`Interpreter::interpret` has no `FunctionCall` arm either). -/
theorem c4_native_call_aborts :
    isOkE (bindVoidFunction Interpreter.new "f") = true
    ∧ eval c4state "f()" = .error (.panicked "Unexpected character: (") := by
  constructor
  · rfl
  · rfl

/-- C5: the claim (and the Rust function's own doc comment) says a
function-type name separates argument type names from the return type
name with `:` inside the angle brackets, so a zero-argument no-return
type is named `<:>`.  The implementation of `construct_type_name` never
appends the colon or the return name: the zero-argument no-return type
is named `<>`, and that is the name of the type symbol
`bind_void_function` inserts into the global scope. -/
theorem c5_type_name_has_no_colon :
    constructTypeName none [] SemanticAnalyzer.new = .ok "<>"
    ∧ (assocLookup c4state.sa.scopes c4state.sa.global_scope_id).map
        (fun t => (assocLookup t.symbols 6).map Symbol.name) = some (some "<>")
    ∧ "<>" ≠ "<:>" := by
  refine ⟨rfl, rfl, ?_⟩
  decide

/-- C7: state persists across `eval` calls on one interpreter: after
`eval "var x = 1"`, a later `eval "x"` on the resulting state succeeds
and yields the integer 1; the symbol `x` lives in the repl scope (a
permanent child of the global scope) and not in the global scope. -/
theorem c7_repl_state_persists :
    isOkE (eval Interpreter.new "var x = 1") = true
    ∧ (evalValue c7state "x").map (fun v => v.content) =
        some (.Primitive (.Int 1))
    ∧ (assocLookup c7state.sa.scopes c7state.sa.repl_scope_id).map
        (fun t => (t.lookupName "x").isSome) = some true
    ∧ (assocLookup c7state.sa.scopes c7state.sa.global_scope_id).map
        (fun t => (t.lookupName "x").isSome) = some false
    ∧ (assocLookup c7state.sa.scopes c7state.sa.repl_scope_id).map
        (fun t => t.parent) = some (some c7state.sa.global_scope_id) := by
  refine ⟨rfl, rfl, rfl, rfl, rfl⟩

/-- C8: `if true \x7b var z = 5 \x7d` evaluates successfully; a later
reference to `z` outside the block fails with the unknown-variable
error, because the block scope created during analysis (table id 6) is a
child of the repl scope and is no longer on the chain of the later
reference. -/
theorem c8_block_scope_isolation :
    isOkE (eval Interpreter.new "if true { var z = 5 }") = true
    ∧ eval c8state "z" = .error (.err "Variable z not found")
    ∧ (assocLookup c8state.sa.scopes 6).map (fun t => t.parent) =
        some (some c8state.sa.repl_scope_id) := by
  refine ⟨rfl, rfl, rfl⟩

/-- C10 counterexample: the claim quantifies over *every* source text
whose first token is `\x7d`, but lexing runs over the whole input before
parsing, so an unrecognized character later in the text (here `(`)
aborts the process instead of returning success. -/
theorem c10_counterexample :
    eval Interpreter.new "\x7d(" = .error (.panicked "Unexpected character: (") := by
  rfl

/-- C2 (amended): the duplicate check of a declaration walks the *whole*
scope chain (`symbol_from_node` recurses into the parent scope), not the
current scope only.  Given that the initializer analyzes to a value
type: if the declared name resolves anywhere along the chain from the
current scope, the declaration is rejected with the
duplicate-declaration error (this covers both a same-scope duplicate and
an attempted shadowing from a nested block); if it resolves nowhere, the
declaration succeeds and inserts a fresh variable symbol into the
current scope. -/
theorem c2_declaration_checks_whole_chain (fuel : Nat) (sa sa1 : SemanticAnalyzer)
    (tok : Token) (init : Ast) (res : SemanticResult) (τ : Nat)
    (hinit : analyzeNode fuel sa init = .ok (sa1, res))
    (hty : res.type_id = some τ) :
    (∀ s, symbolFromNodeSA sa1 (.Variable tok) = .ok (some s) →
        analyzeNode (fuel + 1) sa (.Declaration tok init) =
          .error (.err ("Variable called " ++ tok.value ++ " already exists.")))
    ∧ (∀ tbl, symbolFromNodeSA sa1 (.Variable tok) = .ok none →
        assocLookup sa1.scopes sa1.current_scope_id = some tbl →
        analyzeNode (fuel + 1) sa (.Declaration tok init) =
          .ok ({ sa1 with
                 fresh := sa1.fresh + 1,
                 scopes := assocInsert sa1.scopes sa1.current_scope_id
                   { tbl with
                     symbols := assocInsert tbl.symbols sa1.fresh
                       { name := tok.value, symbol_id := sa1.fresh,
                         variant := .Variable τ } } },
               { node := .Declaration sa1.fresh sa1.fresh res.node, type_id := none })) := by
  constructor
  · intro s hs
    simp only [analyzeNode, hinit, ebind_ok, hty, hs]
  · intro tbl hn htbl
    simp only [analyzeNode, hinit, ebind_ok, hty, hn, htbl]

/-- Witness for `c2_declaration_checks_whole_chain`: declaring the name
`int` in a fresh analyzer (current scope: the global scope, which holds
the primitive symbol `int`) is rejected, and declaring the unused name
`x` there succeeds. -/
theorem c2_declaration_checks_whole_chain_witness :
    analyzeNode 2 SemanticAnalyzer.new (.Declaration c2intTok (.Number c2numTok)) =
      .error (.err "Variable called int already exists.")
    ∧ analyzeNode 2 SemanticAnalyzer.new (.Declaration c2xTok (.Number c2numTok)) =
      .ok ({ SemanticAnalyzer.new with
             fresh := 7,
             scopes := assocInsert SemanticAnalyzer.new.scopes 4
               { globalTable with
                 symbols := assocInsert globalTable.symbols 6
                   { name := "x", symbol_id := 6, variant := .Variable 0 } } },
           { node := .Declaration 6 6 (.Number c2numTok), type_id := none }) := by
  constructor
  · exact (c2_declaration_checks_whole_chain 1 SemanticAnalyzer.new SemanticAnalyzer.new
      c2intTok (.Number c2numTok) { node := .Number c2numTok, type_id := some 0 } 0
      rfl rfl).1 INT_TYPE rfl
  · exact (c2_declaration_checks_whole_chain 1 SemanticAnalyzer.new SemanticAnalyzer.new
      c2xTok (.Number c2numTok) { node := .Number c2numTok, type_id := some 0 } 0
      rfl rfl).2 globalTable rfl rfl

/-- C6: the assignment rules.  Given that the value expression analyzes
to a value of type id `t2` and that the target resolves (in the state
after the value analysis) to a variable symbol of declared type id `t1`:
a differing type is rejected with the `Type mismatch` error naming both
type names; an equal type produces the annotated assignment node.  At
run time, once the value expression evaluates to `w`, the assignment
rebinds the resolved symbol to `w` and inserts `w` into the value table,
and a subsequent read of the same symbol (with no intervening rebinding)
yields exactly `w`. -/
theorem c6_assignment_type_rule (fuel : Nat) (sa sa1 : SemanticAnalyzer)
    (target value : Ast) (res : SemanticResult) (s : Symbol) (t1 t2 : Nat)
    (n1 n2 : Option String)
    (hv : analyzeNode fuel sa value = .ok (sa1, res))
    (hres : res.type_id = some t2)
    (hsym : symbolFromNodeSA sa1 target = .ok (some s))
    (hvar : s.variant = .Variable t1)
    (hn1 : nameOfType sa1 t1 = .ok n1)
    (hn2 : nameOfType sa1 t2 = .ok n2) :
    (t2 ≠ t1 → analyzeNode (fuel + 1) sa (.Assignment target value) =
        .error (.err (mismatchMsg (n1.getD "<unknown>") (n2.getD "<unknown>"))))
    ∧ (t2 = t1 → analyzeNode (fuel + 1) sa (.Assignment target value) =
        .ok (sa1, { node := .Assignment s.symbol_id res.node, type_id := none }))
    ∧ (∀ (ifuel jfuel : Nat) (ist ist1 : Interp) (w : Value) (vnode : SemanticAst)
          (s2 : Symbol),
        interpret ifuel ist vnode = .ok (ist1, some w) →
        resolveSymbol ist1.sa s.symbol_id = .ok s2 →
        interpret (ifuel + 1) ist (.Assignment s.symbol_id vnode) =
          .ok (assignState ist1 s2.symbol_id w, none)
        ∧ interpret (jfuel + 1) (assignState ist1 s2.symbol_id w) (.Variable s.symbol_id) =
          .ok (assignState ist1 s2.symbol_id w, some w)) := by
  refine ⟨?_, ?_, ?_⟩
  · intro hne
    simp only [analyzeNode, hv, ebind_ok, hsym, hvar, hres, hn1, hn2, if_neg hne]
  · intro heq
    subst heq
    simp [analyzeNode, hv, ebind_ok, hsym, hvar, hres]
  · intro ifuel jfuel ist ist1 w vnode s2 hw hres2
    constructor
    · simp only [interpret, hw, ebind_ok, hres2]
    · simp only [interpret, assignState, hres2, assocLookup_insert_self, ebind_ok]

/-- Witness for `c6_assignment_type_rule`: in a state where `x : int` is
declared, assigning the truth literal is rejected with the message
naming `int` and `truth`; at run time, assigning the literal `2` rebinds
the symbol and a subsequent read yields that value. -/
theorem c6_assignment_type_rule_witness :
    analyzeNode 2 c6sa (.Assignment (.Variable c6xtok) (.Truth c6ttok)) =
      .error (.err "Type mismatch: Expected type \"int\" but got type \"truth\"")
    ∧ interpret 2 c6ist (.Assignment 6 c6vnode) = .ok (assignState c6ist1 6 c6w, none)
    ∧ interpret 1 (assignState c6ist1 6 c6w) (.Variable 6) =
      .ok (assignState c6ist1 6 c6w, some c6w) := by
  refine ⟨?_, ?_, ?_⟩
  · exact (c6_assignment_type_rule 1 c6sa c6sa (.Variable c6xtok) (.Truth c6ttok)
      { node := .Truth c6ttok, type_id := some 3 } c6xsym 0 3 (some "int") (some "truth")
      rfl rfl rfl rfl rfl rfl).1 (by decide)
  · exact ((c6_assignment_type_rule 1 c6sa c6sa (.Variable c6xtok) (.Truth c6ttok)
      { node := .Truth c6ttok, type_id := some 3 } c6xsym 0 3 (some "int") (some "truth")
      rfl rfl rfl rfl rfl rfl).2.2 1 0 c6ist c6ist1 c6w c6vnode c6xsym rfl rfl).1
  · exact ((c6_assignment_type_rule 1 c6sa c6sa (.Variable c6xtok) (.Truth c6ttok)
      { node := .Truth c6ttok, type_id := some 3 } c6xsym 0 3 (some "int") (some "truth")
      rfl rfl rfl rfl rfl rfl).2.2 1 0 c6ist c6ist1 c6w c6vnode c6xsym rfl rfl).2

/-- C9: conditional semantics.  At run time, once the condition
evaluates to a value: if that value is the truth `true`, the `If`
statement runs the body exactly once (its result is the body run's state
with the value discarded); if it is the truth `false`, the body is not
run at all; both cases produce no value.  During analysis, a condition
whose type is not the truth type makes the `If` statement fail semantic
analysis (given condition and body themselves analyze), so no
interpretation of it can occur. -/
theorem c9_conditional_rule (cond body : SemanticAst) (c b : Ast) :
    (∀ (ifuel : Nat) (ist ist1 : Interp) (v : Value),
        interpret ifuel ist cond = .ok (ist1, some v) →
        ((v.content = .Primitive (.Bool true) →
            interpret (ifuel + 1) ist (.If cond body) =
              (match interpret ifuel ist1 body with
               | .ok p => .ok (p.1, (none : Option Value))
               | .error e => .error e))
         ∧ (v.content = .Primitive (.Bool false) →
            interpret (ifuel + 1) ist (.If cond body) = .ok (ist1, none))))
    ∧ (∀ (afuel : Nat) (sa sa1 sa2 : SemanticAnalyzer) (rc rb : SemanticResult),
        analyzeNode afuel sa c = .ok (sa1, rc) →
        analyzeNode afuel sa1 b = .ok (sa2, rb) →
        rc.type_id ≠ some TRUTH_TYPE.symbol_id →
        ∃ m, analyzeNode (afuel + 1) sa (.If c b) = .error (.err m)) := by
  constructor
  · intro ifuel ist ist1 v hc
    constructor
    · intro htrue
      simp only [interpret, hc, ebind_ok, htrue]
      cases hb : interpret ifuel ist1 body with
      | ok p => rfl
      | error e => rfl
    · intro hfalse
      simp only [interpret, hc, ebind_ok, hfalse]
  · intro afuel sa sa1 sa2 rc rb hcnd hbdy hne
    cases hty : rc.type_id with
    | none =>
        refine ⟨"If condition must be a valid expression (Must return value)", ?_⟩
        simp only [analyzeNode, hcnd, ebind_ok, hbdy, hty]
    | some ct =>
        have hct : ct ≠ TRUTH_TYPE.symbol_id := by
          intro h
          exact hne (by simp [hty, h])
        refine ⟨"If condition must be a truth", ?_⟩
        simp only [analyzeNode, hcnd, ebind_ok, hbdy, hty, if_neg hct]

/-- Witness for `c9_conditional_rule`: a `true` condition runs the body
once, a `false` condition skips it, and an `int`-typed condition is
rejected by analysis. -/
theorem c9_conditional_rule_witness :
    interpret 2 Interpreter.new (.If c9cond c9bodyS) =
      (match interpret 1 { Interpreter.new with fresh := 1 } c9bodyS with
       | .ok p => .ok (p.1, (none : Option Value))
       | .error e => .error e)
    ∧ interpret 2 Interpreter.new (.If c9condF c9bodyS) =
      .ok ({ Interpreter.new with fresh := 1 }, none)
    ∧ ∃ m, analyzeNode 2 SemanticAnalyzer.new (.If c9condAst c9bodyAst) =
      .error (.err m) := by
  refine ⟨?_, ?_, ?_⟩
  · exact ((c9_conditional_rule c9cond c9bodyS c9condAst c9bodyAst).1 1 Interpreter.new
      { Interpreter.new with fresh := 1 }
      { content := .Primitive (.Bool true), uuid := 0 } rfl).1 rfl
  · exact ((c9_conditional_rule c9condF c9bodyS c9condAst c9bodyAst).1 1 Interpreter.new
      { Interpreter.new with fresh := 1 }
      { content := .Primitive (.Bool false), uuid := 0 } rfl).2 rfl
  · exact (c9_conditional_rule c9cond c9bodyS c9condAst c9bodyAst).2 1
      SemanticAnalyzer.new SemanticAnalyzer.new SemanticAnalyzer.new
      { node := .Number { token_type := .Number, value := "1", line := 1, column := 0 },
        type_id := some 0 }
      { node := .Truth { token_type := .Truth, value := "true", line := 1, column := 0 },
        type_id := some 3 }
      rfl rfl (by decide)

/-- C10 (amended): for every source text that lexes to completion (no
unrecognized-character abort) into a newline run followed by a `\x7d`
and arbitrary further tokens, `eval` succeeds with no value:
`statement_list` consumes the `\x7d` and returns an empty statement
list without looking at the rest, and `eval` only pushes and pops the
repl scope, leaving the value table and the binding map untouched
(the final state differs from the initial one only in the current scope
id, which ends at the repl scope's parent). -/
theorem c10_leading_rcurly (s : String) (ist : Interp) (nls rest : List Token)
    (rc : Token) (tblP : SymbolTable) (p : Nat)
    (hlex : lex s = .ok (nls ++ rc :: rest))
    (hnl : ∀ t ∈ nls, t.token_type = .NewLine)
    (hrc : rc.token_type = .RightCurly)
    (hrepl : assocLookup ist.sa.scopes ist.sa.repl_scope_id = some tblP)
    (hpar : tblP.parent = some p) :
    eval ist s = .ok ({ ist with sa := { ist.sa with current_scope_id := p } }, none) := by
  have hsl : statementList (nls ++ rc :: rest) = .ok [] := by
    have h1 : ignoreNewline (nls ++ rc :: rest) = rc :: rest := by
      rw [ignoreNewline_nl_run nls (rc :: rest) hnl]
      simp [ignoreNewline, hrc]
    simp [statementList, h1, consume, hrc]
  simp only [eval, hlex, hsl, evalStatements, pushScope, popScope, hrepl, hpar, ebind_ok]

/-- Witness for `c10_leading_rcurly`: the input `"\x7d"` on a fresh
interpreter. -/
theorem c10_leading_rcurly_witness :
    eval Interpreter.new "\x7d" =
      .ok ({ Interpreter.new with
             sa := { Interpreter.new.sa with current_scope_id := 4 } }, none) := by
  exact c10_leading_rcurly "\x7d" Interpreter.new [] [] c10tok replTable 4 rfl
    (by intro t ht; cases ht) rfl rfl rfl

end Odo
